import Mathlib

/-!
Verification of the Exercism python test runner (source: src/runner/`__init__`.py).

Conventions of the shallow embedding:

* Python strings are Lean `String`s; the character-level operations the source
  relies on (str.split, str.join, str.replace, textwrap.dedent, the anchored
  re.sub, os.path.commonpath) are implemented over `List Char` with structural
  recursion (a fuel argument bounded by the string length where needed) so
  that every definition evaluates inside the kernel.
* A Python expression that can raise is embedded as a function into `Option`;
  `none` means the original code raises at that point.  A handler embedded as
  `Option` discards the partially mutated state on `none`; no claim below
  inspects state after an exception.
* The modules runner/data.py and runner/sort.py are imported by the source but
  are not among the sources under verification; every definition taken from
  them carries a doc comment starting `Modelled from the spec:` and follows
  the specification text only.
-/

/-- Python str.split(sep) over character lists, for a nonempty separator, with
fuel bounded by the length of the subject (each step consumes at least one
character, so the fuel never runs out on the initial call). -/
def splitAux (sep : List Char) : Nat → List Char → List Char → List (List Char)
  | _, acc, [] => [acc.reverse]
  | 0, acc, rest => [acc.reverse ++ rest]
  | fuel + 1, acc, c :: cs =>
    if sep.isPrefixOf (c :: cs) then
      acc.reverse :: splitAux sep fuel [] (List.drop sep.length (c :: cs))
    else
      splitAux sep fuel (c :: acc) cs

/-- Python s.split(sep) for a nonempty sep, as a list of character lists. -/
def pySplit (s sep : String) : List (List Char) :=
  splitAux sep.data s.data.length [] s.data

/-- Python sep.join over character lists. -/
def joinChars (sep : List Char) : List (List Char) → List Char
  | [] => []
  | [x] => x
  | x :: y :: xs => x ++ sep ++ joinChars sep (y :: xs)

/-- Python str.replace(old, new) for a nonempty old: replace every
non-overlapping occurrence, scanning left to right.  (For an empty old the
source never reaches this operation with the inputs the claims concern; the
embedding leaves the string unchanged in that case.) -/
def replaceAux (pat rep : List Char) : Nat → List Char → List Char
  | _, [] => []
  | 0, l => l
  | fuel + 1, c :: cs =>
    if pat.isPrefixOf (c :: cs) && !pat.isEmpty then
      rep ++ replaceAux pat rep fuel (List.drop pat.length (c :: cs))
    else
      c :: replaceAux pat rep fuel cs

/-- Python s.replace(pat, rep) for a nonempty pat. -/
def replaceAll (s pat rep : String) : String :=
  String.mk (replaceAux pat.data rep.data s.data.length s.data)

/-- The characters textwrap.dedent treats as margin whitespace. -/
def isSpaceTab (c : Char) : Bool := c = ' ' || c = '\t'

/-- Longest common prefix of two lists. -/
def lcpList {α : Type} [DecidableEq α] : List α → List α → List α
  | a :: as, b :: bs => if a = b then a :: lcpList as bs else []
  | _, _ => []

/-- textwrap.dedent: lines consisting solely of blanks and tabs are normalized
to empty; the margin is the longest common leading whitespace of the remaining
nonblank lines and is stripped from every line that starts with it. -/
def dedentChars (text : List Char) : List Char :=
  let lines := splitAux ['\n'] text.length [] text
  let norm := lines.map fun l => if !l.isEmpty && l.all isSpaceTab then [] else l
  let indents := (norm.filter fun l => l.any fun c => !isSpaceTab c).map
    fun l => l.takeWhile isSpaceTab
  let margin :=
    match indents with
    | [] => ([] : List Char)
    | i :: is => is.foldl lcpList i
  if margin.isEmpty then joinChars ['\n'] norm
  else joinChars ['\n'] (norm.map fun l =>
    if margin.isPrefixOf l then List.drop margin.length l else l)

/-- textwrap.dedent on strings. -/
def dedent (s : String) : String := String.mk (dedentChars s.data)

/-- re.sub("^E ", "  ", s, flags=re.M) (src line 124): on every line, replace a
leading "E " by two blanks. -/
def subEMarker (s : String) : String :=
  String.mk (joinChars ['\n']
    ((pySplit s "\n").map fun l =>
      if ['E', ' '].isPrefixOf l then ' ' :: ' ' :: List.drop 2 l else l))

/-- Python p[:1] == "/", the absoluteness test os.path.commonpath applies. -/
def isAbs (p : String) : Bool := ['/'].isPrefixOf p.data

/-- os.path.commonpath([p1, p2]) on POSIX: split on "/", discard empty and "."
components, take the longest common component prefix; `none` models the
ValueError raised when an absolute and a relative path are mixed. -/
def commonpath2 (p1 p2 : String) : Option String :=
  if isAbs p1 ≠ isAbs p2 then none
  else
    let comps := fun (p : String) =>
      (splitAux ['/'] p.data.length [] p.data).filter fun c => !c.isEmpty && c != ['.']
    let pre : List Char := if isAbs p1 then ['/'] else []
    some (String.mk (pre ++ joinChars ['/'] (lcpList (comps p1) (comps p2))))

/-- ResultsReporter._make_message (src lines 119-130), with the ambient
Path.cwd() made an explicit first argument: stringify the traceback, replace
the "E " marker, dedent; when a crash locator is present, replace every
occurrence of the common prefix of cwd and the crash path by ".".  `none`
models the exception raised by os.path.commonpath. -/
def _make_message (cwd trace : String) (crash : Option String) : Option String :=
  match crash with
  | none => some (dedent (subEMarker trace))
  | some path =>
    (commonpath2 cwd path).map fun common =>
      replaceAll (dedent (subEMarker trace)) common "."

/-- The no-crash formatter output exactly as the claim words it: the rendered
traceback with the failing-line marker replaced by a two-space indent, and
nothing else. -/
def make_message_claimed_no_crash (trace : String) : String := subEMarker trace

/-- Modelled from the spec: runner/data.py is not among the sources; the
per-test verdict values of a TestRecord (spec section 3). -/
inductive Status
  | passed
  | failed
  | errored
deriving DecidableEq

/-- Modelled from the spec: the runner/data.py Test record — name key, verdict
(default passed), optional diagnostic message, optional captured output,
optional attached source text. -/
structure Test where
  name : String
  status : Status := Status.passed
  message : Option String := none
  output : Option String := none
  test_code : Option String := none
deriving DecidableEq

/-- Modelled from the spec: Test.is_passing — the record still has its default
passed verdict. -/
def Test.is_passing (t : Test) : Bool :=
  match t.status with
  | Status.passed => true
  | _ => false

/-- Modelled from the spec: Test.fail — record an assertion failure with its
diagnostic message. -/
def Test.fail (t : Test) (message : Option String) : Test :=
  { t with status := Status.failed, message := message }

/-- Modelled from the spec: Test.error — record a setup/teardown fault with its
diagnostic message. -/
def Test.error (t : Test) (message : Option String) : Test :=
  { t with status := Status.errored, message := message }

/-- Modelled from the spec: the RunOutcome overall status values. -/
inductive OverallStatus
  | ok
  | testFailures
  | error
deriving DecidableEq

/-- Modelled from the spec: the runner/data.py Results aggregate — overall
status (default ok), optional run-level error message, test snapshots. -/
structure Results where
  status : OverallStatus := OverallStatus.ok
  message : Option String := none
  tests : List Test := []
deriving DecidableEq

/-- Modelled from the spec: Results.fail — at least one test failed. -/
def Results.fail (r : Results) : Results :=
  { r with status := OverallStatus.testFailures }

/-- Modelled from the spec: Results.error — a run-level error with its message. -/
def Results.error (r : Results) (message : String) : Results :=
  { r with status := OverallStatus.error, message := some message }

/-- Modelled from the spec: Results.add — append one test snapshot. -/
def Results.add (r : Results) (t : Test) : Results :=
  { r with tests := r.tests ++ [t] }

/-- Phase of a pytest report (report.when). -/
inductive Phase
  | setup
  | call
  | teardown
deriving DecidableEq

/-- Outcome of a pytest report; report.passed and report.failed are the two
tests the source consults, skipped is the remaining pytest outcome. -/
inductive Outcome
  | passed
  | failed
  | skipped
deriving DecidableEq

/-- Engine-supplied failure representation: report.longrepr with its rendered
reprtraceback (stringified) and the reprcrash locator's path, when present. -/
structure LongRepr where
  reprtraceback : String
  reprcrash : Option String
deriving DecidableEq

/-- One pytest phase report, restricted to the fields the source reads. -/
structure Report where
  nodeid : String
  fspath : String
  when : Phase
  outcome : Outcome
  capstdout : String
  longrepr : Option LongRepr
deriving DecidableEq

/-- pytest.ExitCode, whose values pytest_sessionfinish distinguishes. -/
inductive ExitCode
  | OK
  | TESTS_FAILED
  | INTERRUPTED
  | INTERNAL_ERROR
  | USAGE_ERROR
  | NO_TESTS_COLLECTED
deriving DecidableEq

/-- The enum member name, as interpolated into the synthesized message. -/
def ExitCode.name : ExitCode → String
  | .OK => "OK"
  | .TESTS_FAILED => "TESTS_FAILED"
  | .INTERRUPTED => "INTERRUPTED"
  | .INTERNAL_ERROR => "INTERNAL_ERROR"
  | .USAGE_ERROR => "USAGE_ERROR"
  | .NO_TESTS_COLLECTED => "NO_TESTS_COLLECTED"

/-- Ambient context of the reporter: the working directory (Path.cwd()), the
engine root (self.config.rootdir), and the ordering adapter.
Modelled from the spec: TestOrder.function_source (runner/sort.py is not among
the sources) is a total resolver from a test identity and a source path to the
test's literal source text, `none` when resolution fails — the spec makes the
attachment best-effort, swallowing its own faults. -/
structure Env where
  cwd : String
  rootdir : String
  function_source : String → String → Option String

/-- The reporter's mutable state (src lines 18-21; config is carried in Env). -/
structure ResultsReporter where
  results : Results := {}
  tests : List Test := []
  last_err : Option String := none
deriving DecidableEq

/-- Name derivation (src line 43): drop the leading module segment of the
nodeid and join the remainder with ".". -/
def nameOf (nodeid : String) : String :=
  String.mk (joinChars ['.'] (List.drop 1 (pySplit nodeid "::")))

/-- The record name a report maps to. -/
def Report.name (r : Report) : String := nameOf r.nodeid

/-- Lookup in the insertion-ordered dict self.tests, keyed by Test.name. -/
def lookupTest (tests : List Test) (name : String) : Option Test :=
  tests.find? fun t => t.name == name

/-- Create-if-absent (src lines 44-45): a fresh default record is appended for
an unseen name. -/
def ensureTest (tests : List Test) (name : String) : List Test :=
  if (lookupTest tests name).isSome then tests else tests ++ [{ name := name }]

/-- In-place mutation of the record stored under a name. -/
def updateTest (tests : List Test) (name : String) (v : Test) : List Test :=
  tests.map fun t => if t.name == name then v else t

/-- Message built for a failed report (src lines 63-68): inner `none` when the
report carries no longrepr; outer `none` when the formatter raises. -/
def buildMessage (env : Env) (report : Report) : Option (Option String) :=
  match report.longrepr with
  | none => some none
  | some lr => (_make_message env.cwd lr.reprtraceback lr.reprcrash).map some

/-- Failure handling of one report (src lines 61-74): on a failed outcome,
build the message and record an error (setup/teardown) or a failure (call). -/
def failedStateUpdate (env : Env) (report : Report) (state : Test) : Option Test :=
  if report.outcome = Outcome.failed then
    (buildMessage env report).map fun message =>
      if report.when ≠ Phase.call then state.error message else state.fail message
  else some state

/-- Captured-output refresh (src lines 57-58): a non-empty capstdout
overwrites the record's output. -/
def captureUpdate (report : Report) (state : Test) : Test :=
  if report.capstdout ≠ "" then { state with output := some report.capstdout } else state

/-- Source-text attachment (src lines 76-78): the ordering adapter resolves
the identity and the rootdir-joined originating path to the record's
test_code. -/
def attachSource (env : Env) (report : Report) (state : Test) : Test :=
  { state with test_code :=
      env.function_source report.nodeid (env.rootdir ++ "/" ++ report.fspath) }

/-- The part of the report handler past its two early returns (src lines
56-78): refresh output, handle failure, attach source, store the record. -/
def logreportActive (env : Env) (self : ResultsReporter) (report : Report)
    (tests : List Test) (state : Test) : Option ResultsReporter :=
  (failedStateUpdate env report (captureUpdate report state)).map fun state2 =>
    { self with tests := updateTest tests report.name (attachSource env report state2) }

/-- ResultsReporter.pytest_runtest_logreport (src lines 39-78): create the
record if needed; ignore passing non-call reports; ignore reports for records
that already left passed; then run the active part. -/
def pytest_runtest_logreport (env : Env) (self : ResultsReporter) (report : Report) :
    Option ResultsReporter :=
  let name := report.name
  let tests := ensureTest self.tests name
  let state := (lookupTest tests name).getD { name := name }
  if report.outcome = Outcome.passed ∧ report.when ≠ Phase.call then
    some { self with tests := tests }
  else if state.is_passing = false then
    some { self with tests := tests }
  else
    logreportActive env self report tests state

/-- ResultsReporter.pytest_sessionfinish (src lines 80-100): map the exit
status onto the aggregate outcome, then snapshot every record in creation
order. -/
def pytest_sessionfinish (self : ResultsReporter) (exitstatus : ExitCode) : ResultsReporter :=
  let results :=
    if exitstatus = ExitCode.TESTS_FAILED then
      self.results.fail
    else if exitstatus ≠ ExitCode.OK then
      self.results.error
        (match self.last_err with
         | some e => e
         | none => "Unexpected ExitCode." ++ exitstatus.name ++ ": check logs for details")
    else self.results
  { self with results := self.tests.foldl (fun r t => r.add t) results }

/-- ResultsReporter.pytest_exception_interact (src lines 108-117): on a failed
outcome, store the formatted message as the run-level fallback. -/
def pytest_exception_interact (env : Env) (self : ResultsReporter) (outcome : Outcome)
    (trace : String) (crash : Option String) : Option ResultsReporter :=
  if outcome = Outcome.failed then
    (_make_message env.cwd trace crash).map fun m => { self with last_err := some m }
  else some self

/-- Python s.startswith(pat). -/
def pyStartsWith (s pat : String) : Bool := pat.data.isPrefixOf s.data

/-- The loop of _sanitize_args (src lines 134-145), as recursion on the
argument list carrying the skip_next flag. -/
def sanitizeGo : Bool → List String → List String
  | _, [] => []
  | true, _ :: rest => sanitizeGo false rest
  | false, arg :: rest =>
    if arg = "--tb" then sanitizeGo true rest
    else if pyStartsWith arg "--tb=" then sanitizeGo false rest
    else arg :: sanitizeGo false rest

/-- _sanitize_args (src lines 133-147). -/
def _sanitize_args (args : List String) : List String :=
  sanitizeGo false args ++ ["--tb=no"]

/-- The sanitizer's removal step as the claim words it: drop each "--tb value"
pair and each "--tb=value" token, keep everything else in order. -/
def removeTbSpec : List String → List String
  | [] => []
  | arg :: rest =>
    if arg = "--tb" then
      match rest with
      | [] => []
      | _ :: rest2 => removeTbSpec rest2
    else if pyStartsWith arg "--tb=" then removeTbSpec rest
    else arg :: removeTbSpec rest

/-- Derived default test filename (src line 161): the slug with "-" replaced
by "_", plus "_test.py". -/
def default_test_file (slug : String) : String :=
  replaceAll slug "-" "_" ++ "_test.py"

/-- Test-file resolution of run (src lines 154-161).  The first argument is
the nested files.test list of .meta/config.json: `none` when the config file
is missing, `some none` when the file exists but the nested list is absent,
`some (some l)` when it is present.  Filenames are kept relative to the input
directory, in both branches. -/
def resolve_test_files (files_test : Option (Option (List String))) (slug : String) :
    List String :=
  let test_files :=
    match files_test with
    | none => []
    | some cfg => cfg.getD []
  if test_files.isEmpty then [default_test_file slug] else test_files

/-- The argument of out_file.chmod in run (src line 168): the plain numeral
664, which Python reads as decimal. -/
def run_chmod_mode : Nat := 664

/-- The mode the spec prose describes: read-write for owner and group,
read-only for others — octal 664. -/
def mode_rw_rw_r : Nat := 0o664

/-- Concrete environment used by the witnesses: root cwd, failing resolver. -/
def env0 : Env := { cwd := "/", rootdir := "/", function_source := fun _ _ => none }

/-- A fresh reporter. -/
def reporter0 : ResultsReporter := {}

/-- A failed call-phase report with captured output "first". -/
def r1 : Report :=
  { nodeid := "example_test.py::TestA::test_one", fspath := "example_test.py",
    when := Phase.call, outcome := Outcome.failed, capstdout := "first", longrepr := none }

/-- A later failed teardown report for the same test, captured output "second". -/
def r2 : Report :=
  { nodeid := "example_test.py::TestA::test_one", fspath := "example_test.py",
    when := Phase.teardown, outcome := Outcome.failed, capstdout := "second", longrepr := none }

/-- A failed setup report for the same test, no captured output, no longrepr. -/
def r3 : Report :=
  { nodeid := "example_test.py::TestA::test_one", fspath := "example_test.py",
    when := Phase.setup, outcome := Outcome.failed, capstdout := "", longrepr := none }

/-- A record that has already failed, with output "first". -/
def t1 : Test :=
  { name := "TestA.test_one", status := Status.failed, message := some "boom",
    output := some "first" }

/-- A reporter holding the failed record t1. -/
def self1 : ResultsReporter := { tests := [t1] }

/-- The reporter state after r3 is processed from scratch under env0. -/
def self3 : ResultsReporter := { tests := [{ name := "TestA.test_one", status := Status.errored }] }

/-- Lookup distributes over cons. -/
theorem lookupTest_cons (a : Test) (as : List Test) (n : String) :
    lookupTest (a :: as) n = if a.name == n then some a else lookupTest as n := by
  cases h : a.name == n <;> simp [lookupTest, List.find?, h]

/-- A hit in the left part of an append is the overall hit. -/
theorem lookupTest_append_some {l : List Test} {n : String} {t : Test} (l' : List Test)
    (h : lookupTest l n = some t) : lookupTest (l ++ l') n = some t := by
  induction l with
  | nil => simp [lookupTest] at h
  | cons a as ih =>
    rw [lookupTest_cons] at h
    rw [List.cons_append, lookupTest_cons]
    split at h <;> rename_i hb
    · rw [if_pos hb]; exact h
    · rw [if_neg hb]; exact ih h

/-- A miss in the left part of an append defers to the right part. -/
theorem lookupTest_append_none {l : List Test} {n : String} (l' : List Test)
    (h : lookupTest l n = none) : lookupTest (l ++ l') n = lookupTest l' n := by
  induction l with
  | nil => simp
  | cons a as ih =>
    rw [lookupTest_cons] at h
    rw [List.cons_append, lookupTest_cons]
    split at h <;> rename_i hb
    · exact absurd h (by simp)
    · rw [if_neg hb]; exact ih h

/-- After create-if-absent the name is present, holding the old record or a
fresh default one. -/
theorem lookupTest_ensure (l : List Test) (n : String) :
    lookupTest (ensureTest l n) n = some ((lookupTest l n).getD { name := n }) := by
  unfold ensureTest
  cases h : lookupTest l n with
  | some t => simp [h]
  | none =>
    simp only [h, Option.isSome_none, Bool.false_eq_true, if_false, Option.getD_none]
    rw [lookupTest_append_none _ h, lookupTest_cons]
    simp

/-- Updating the stored name rewrites what lookup returns. -/
theorem lookupTest_update {l : List Test} {n : String} {t : Test} (v : Test)
    (hv : (v.name == n) = true) (h : lookupTest l n = some t) :
    lookupTest (updateTest l n v) n = some v := by
  induction l with
  | nil => simp [lookupTest] at h
  | cons a as ih =>
    rw [lookupTest_cons] at h
    simp only [updateTest, List.map_cons]
    by_cases hb : (a.name == n) = true
    · rw [if_pos hb, lookupTest_cons, if_pos hv]
    · rw [if_neg hb] at h
      rw [if_neg hb, lookupTest_cons, if_neg hb]
      exact ih h

/-- The looked-up record carries the looked-up name. -/
theorem lookupTest_name {l : List Test} {n : String} {t : Test}
    (h : lookupTest l n = some t) : (t.name == n) = true := by
  unfold lookupTest at h
  simpa using List.find?_some h

/-- Once a record has left passed, any further report for its name leaves the
whole reporter untouched (the handler returns at src line 54, before the
captured-output, failure and source-attachment steps). -/
theorem logreport_frozen (env : Env) (self : ResultsReporter) (report : Report) (t : Test)
    (hl : lookupTest self.tests report.name = some t) (hp : t.is_passing = false) :
    pytest_runtest_logreport env self report = some self := by
  have he : ensureTest self.tests report.name = self.tests := by
    simp [ensureTest, hl]
  simp only [pytest_runtest_logreport, he, hl, Option.getD_some, hp]
  split <;> rfl

/-- If every stored record under the name is passing, the looked-up-or-fresh
record is passing. -/
theorem ensure_state_passing (l : List Test) (n : String)
    (hp : ∀ t, lookupTest l n = some t → t.is_passing = true) :
    ((lookupTest (ensureTest l n) n).getD { name := n }).is_passing = true := by
  rw [lookupTest_ensure, Option.getD_some]
  cases h : lookupTest l n with
  | some t => simp only [h, Option.getD_some]; exact hp t h
  | none => simp only [h, Option.getD_none]; rfl

/-- The looked-up-or-fresh record carries the looked-up name. -/
theorem ensure_state_name (l : List Test) (n : String) :
    (((lookupTest (ensureTest l n) n).getD { name := n }).name == n) = true := by
  rw [lookupTest_ensure, Option.getD_some]
  cases h : lookupTest l n with
  | some t => simp only [h, Option.getD_some]; exact lookupTest_name h
  | none => simp only [h, Option.getD_none]; simp

/-- When neither early return fires, the handler runs its active part on the
looked-up-or-fresh record. -/
theorem logreport_eq_active (env : Env) (self : ResultsReporter) (report : Report)
    (h1 : ¬(report.outcome = Outcome.passed ∧ report.when ≠ Phase.call))
    (h2 : ((lookupTest (ensureTest self.tests report.name) report.name).getD
        { name := report.name }).is_passing = true) :
    pytest_runtest_logreport env self report =
      logreportActive env self report (ensureTest self.tests report.name)
        ((lookupTest (ensureTest self.tests report.name) report.name).getD
          { name := report.name }) := by
  simp only [pytest_runtest_logreport]
  rw [if_neg h1, if_neg (by simp [h2])]

/-- captureUpdate changes only the output field. -/
theorem captureUpdate_fields (report : Report) (state : Test) :
    (captureUpdate report state).name = state.name
    ∧ (captureUpdate report state).status = state.status
    ∧ (captureUpdate report state).message = state.message := by
  unfold captureUpdate
  split <;> exact ⟨rfl, rfl, rfl⟩

/-- attachSource changes only the test_code field. -/
theorem attachSource_fields (env : Env) (report : Report) (state : Test) :
    (attachSource env report state).name = state.name
    ∧ (attachSource env report state).status = state.status
    ∧ (attachSource env report state).message = state.message :=
  ⟨rfl, rfl, rfl⟩

/-- Inversion of the failure handling on a failed report. -/
theorem failedStateUpdate_some (env : Env) (report : Report) (state state2 : Test)
    (hf : report.outcome = Outcome.failed)
    (h : failedStateUpdate env report state = some state2) :
    ∃ m, buildMessage env report = some m
      ∧ state2 = if report.when ≠ Phase.call then state.error m else state.fail m := by
  unfold failedStateUpdate at h
  rw [if_pos hf] at h
  obtain ⟨m, hm, he⟩ := Option.map_eq_some'.mp h
  exact ⟨m, hm, he.symm⟩

/-- Inversion of the active part. -/
theorem active_some (env : Env) (self : ResultsReporter) (report : Report)
    (tests : List Test) (state : Test) (self' : ResultsReporter)
    (hs : logreportActive env self report tests state = some self') :
    ∃ state2, failedStateUpdate env report (captureUpdate report state) = some state2
      ∧ self' = { self with
            tests := updateTest tests report.name (attachSource env report state2) } := by
  unfold logreportActive at hs
  obtain ⟨s2, hm, he⟩ := Option.map_eq_some'.mp hs
  exact ⟨s2, hm, he.symm⟩

/-- When a failed report is processed for a fresh or still-passing record and
the handler completes, the stored record's status reflects the phase — failed
for call, errored otherwise — and its message is absent when the report
carried no longrepr. -/
theorem logreport_failed_lookup (env : Env) (self : ResultsReporter) (report : Report)
    (self' : ResultsReporter)
    (hf : report.outcome = Outcome.failed)
    (hp : ∀ t, lookupTest self.tests report.name = some t → t.is_passing = true)
    (hs : pytest_runtest_logreport env self report = some self') :
    ∃ t', lookupTest self'.tests report.name = some t'
      ∧ t'.status = (if report.when = Phase.call then Status.failed else Status.errored)
      ∧ (report.longrepr = none → t'.message = none) := by
  have h1 : ¬(report.outcome = Outcome.passed ∧ report.when ≠ Phase.call) := by
    rw [hf]; simp
  have h2 := ensure_state_passing self.tests report.name hp
  rw [logreport_eq_active env self report h1 h2] at hs
  obtain ⟨state2, hfsu, hself⟩ := active_some _ _ _ _ _ _ hs
  obtain ⟨m, hbm, hstate2⟩ := failedStateUpdate_some _ _ _ _ hf hfsu
  set state := ((lookupTest (ensureTest self.tests report.name) report.name).getD
    { name := report.name }) with hstate
  have hn2 : ((attachSource env report state2).name == report.name) = true := by
    rw [(attachSource_fields env report state2).1, hstate2]
    split
    · rw [Test.error, (captureUpdate_fields report state).1]
      exact ensure_state_name self.tests report.name
    · rw [Test.fail, (captureUpdate_fields report state).1]
      exact ensure_state_name self.tests report.name
  have hin : lookupTest (ensureTest self.tests report.name) report.name
      = some state := by
    rw [hstate, lookupTest_ensure, Option.getD_some]
  refine ⟨attachSource env report state2, ?_, ?_, ?_⟩
  · rw [hself]
    exact lookupTest_update _ hn2 hin
  · rw [(attachSource_fields env report state2).2.1, hstate2]
    by_cases hw : report.when = Phase.call
    · rw [if_neg (by simp [hw]), if_pos hw]; rfl
    · rw [if_pos hw, if_neg hw]; rfl
  · intro hlr
    have hm : m = none := by
      have hb2 : buildMessage env report = some none := by simp [buildMessage, hlr]
      rw [hb2] at hbm
      exact (Option.some.inj hbm).symm
    rw [(attachSource_fields env report state2).2.2, hstate2, hm]
    split
    · rfl
    · rfl

/-- With no longrepr on the report there is nothing to format, and the handler
always completes: every state mutation it performs is total. -/
theorem logreport_isSome_no_longrepr (env : Env) (self : ResultsReporter) (report : Report)
    (h : report.longrepr = none) :
    (pytest_runtest_logreport env self report).isSome = true := by
  simp only [pytest_runtest_logreport]
  split
  · rfl
  · split
    · rfl
    · simp only [logreportActive, Option.isSome_map', failedStateUpdate, buildMessage, h]
      split <;> simp

/-- The only way the handler can fail to complete is a fault of the diagnostic
formatter on the report's longrepr. -/
theorem logreport_none_inv (env : Env) (self : ResultsReporter) (report : Report)
    (h : pytest_runtest_logreport env self report = none) :
    ∃ lr, report.longrepr = some lr
      ∧ _make_message env.cwd lr.reprtraceback lr.reprcrash = none := by
  simp only [pytest_runtest_logreport] at h
  split at h
  · exact absurd h (by simp)
  · split at h
    · exact absurd h (by simp)
    · simp only [logreportActive] at h
      have h2 := Option.map_eq_none'.mp h
      simp only [failedStateUpdate] at h2
      split at h2
      · have h3 := Option.map_eq_none'.mp h2
        cases hlr : report.longrepr with
        | none =>
          rw [buildMessage, hlr] at h3
          exact absurd h3 (by simp)
        | some lr =>
          rw [buildMessage, hlr] at h3
          exact ⟨lr, rfl, Option.map_eq_none'.mp h3⟩
      · exact absurd h2 (by simp)

/-- Whether the handler completes does not depend on the ordering adapter: a
fault of source-text resolution (a resolver returning none) is non-fatal. -/
theorem logreport_isSome_adapter (cwd rootdir : String)
    (f g : String → String → Option String) (self : ResultsReporter) (report : Report) :
    (pytest_runtest_logreport ⟨cwd, rootdir, f⟩ self report).isSome
      = (pytest_runtest_logreport ⟨cwd, rootdir, g⟩ self report).isSome := by
  simp only [pytest_runtest_logreport]
  split
  · rfl
  · split
    · rfl
    · simp only [logreportActive, Option.isSome_map']
      have hfs : failedStateUpdate ⟨cwd, rootdir, f⟩ report
          = failedStateUpdate ⟨cwd, rootdir, g⟩ report := rfl
      rw [hfs]

/-- The skip_next loop agrees with the direct removal recursion. -/
theorem sanitizeGo_bounded (n : Nat) : ∀ l : List String, l.length ≤ n →
    sanitizeGo false l = removeTbSpec l := by
  induction n with
  | zero =>
    intro l h
    have hl : l = [] := List.eq_nil_of_length_eq_zero (Nat.le_zero.mp h)
    subst hl; rfl
  | succ n ih =>
    intro l h
    cases l with
    | nil => rfl
    | cons arg rest =>
      by_cases h1 : arg = "--tb"
      · subst h1
        cases rest with
        | nil => rfl
        | cons v rest2 =>
          have hlen : rest2.length ≤ n := by
            simp only [List.length_cons] at h; omega
          simp only [sanitizeGo, removeTbSpec, if_pos rfl]
          exact ih rest2 hlen
      · have hlen : rest.length ≤ n := by
          simp only [List.length_cons] at h; omega
        by_cases h2 : pyStartsWith arg "--tb=" = true
        · simp only [sanitizeGo, if_neg h1, if_pos h2]
          rw [removeTbSpec.eq_def]
          simp only [if_neg h1, if_pos h2]
          exact ih rest hlen
        · simp only [sanitizeGo, if_neg h1, if_neg h2]
          rw [removeTbSpec.eq_def]
          simp only [if_neg h1, if_neg h2]
          rw [ih rest hlen]

/-- Snapshotting the records changes neither the aggregate status nor the
aggregate message. -/
theorem foldl_add_preserves (ts : List Test) (r : Results) :
    (ts.foldl (fun r t => r.add t) r).status = r.status
    ∧ (ts.foldl (fun r t => r.add t) r).message = r.message := by
  induction ts generalizing r with
  | nil => exact ⟨rfl, rfl⟩
  | cons t ts ih =>
    rw [List.foldl_cons]
    exact ih (r.add t)

/-- C1 (amended): once a test's record has become failed or errored, a later
phase report for the same name changes nothing at all — status and message are
frozen as the claim states, but the handler returns before the captured-output
step as well (src line 53 precedes line 57), so the record's output is not
overwritten either: the reporter is returned unchanged. -/
theorem C1_frozen_record (env : Env) (self : ResultsReporter) (report : Report) (t : Test)
    (hl : lookupTest self.tests report.name = some t) (hp : t.is_passing = false) :
    pytest_runtest_logreport env self report = some self :=
  logreport_frozen env self report t hl hp

/-- C1 witness: a reporter holding the already-failed record t1 is left
unchanged by the later teardown report r2. -/
theorem C1_frozen_record_witness :
    lookupTest self1.tests (Report.name r2) = some t1
    ∧ t1.is_passing = false
    ∧ pytest_runtest_logreport env0 self1 r2 = some self1 :=
  ⟨by decide, by decide, C1_frozen_record env0 self1 r2 t1 (by decide) (by decide)⟩

/-- C1 counterexample: a call-phase failure stores output "first"; the later
teardown report for the same name carries the non-empty captured output
"second", yet the stored output remains "first" — the claim's clause that a
later report still overwrites the output fails on the code. -/
theorem C1_output_counterexample :
    ((pytest_runtest_logreport env0 reporter0 r1).bind
      fun s1 => pytest_runtest_logreport env0 s1 r2).map
        (fun s2 => (lookupTest s2.tests "TestA.test_one").map Test.output)
      = some (some (some "first"))
    ∧ r2.capstdout = "second"
    ∧ (some (some (some "first")) : Option (Option (Option String)))
        ≠ some (some (some "second")) :=
  ⟨by decide, by decide, by decide⟩

/-- C2: the driver passes the plain numeral 664 to chmod; Python reads it as
decimal, so the permission bits actually set are octal 1230 — sticky bit,
owner write-only, group write+execute, others nothing — not the rw-rw-r--
(octal 664) the claim and the spec prose describe. -/
theorem C2_chmod_literal_decimal :
    run_chmod_mode = 664
    ∧ run_chmod_mode ≠ mode_rw_rw_r
    ∧ run_chmod_mode % 8 = 0
    ∧ run_chmod_mode / 8 % 8 = 3
    ∧ run_chmod_mode / 64 % 8 = 2
    ∧ run_chmod_mode / 512 % 8 = 1 := by decide

/-- C3: aggregation-state mutations in the report handler are total — whether
the handler completes never depends on the ordering adapter (a resolver that
fails, returning none, is non-fatal); with no longrepr to format the handler
always completes; and the only possible failure point of the handler is the
diagnostic formatter on the report's longrepr. -/
theorem C3_mutations_total :
    (∀ (cwd rootdir : String) (fs : String → String → Option String)
        (self : ResultsReporter) (report : Report),
      (pytest_runtest_logreport ⟨cwd, rootdir, fun _ _ => none⟩ self report).isSome
        = (pytest_runtest_logreport ⟨cwd, rootdir, fs⟩ self report).isSome)
    ∧ (∀ (env : Env) (self : ResultsReporter) (report : Report),
        report.longrepr = none →
        (pytest_runtest_logreport env self report).isSome = true)
    ∧ (∀ (env : Env) (self : ResultsReporter) (report : Report),
        pytest_runtest_logreport env self report = none →
        ∃ lr, report.longrepr = some lr
          ∧ _make_message env.cwd lr.reprtraceback lr.reprcrash = none) :=
  ⟨fun cwd rootdir fs self report =>
      logreport_isSome_adapter cwd rootdir (fun _ _ => none) fs self report,
    logreport_isSome_no_longrepr, logreport_none_inv⟩

/-- C3 witness: the concrete failed report r1 (no longrepr) is processed to
completion under the always-failing resolver of env0. -/
theorem C3_mutations_total_witness :
    r1.longrepr = none
    ∧ (pytest_runtest_logreport env0 reporter0 r1).isSome = true :=
  ⟨rfl, C3_mutations_total.2.1 env0 reporter0 r1 rfl⟩

/-- C4 counterexample: on the one-line traceback "E x" with no crash locator
the code returns "x" — the dedent step (src line 124) strips the two-space
indent the claim says the marker is replaced with — and on a relative crash
path with an absolute working directory the formatter faults
(os.path.commonpath raises), so it does not never-raise for every crash
locator. -/
theorem C4_formatter_counterexample :
    _make_message "/" "E x" none = some "x"
    ∧ make_message_claimed_no_crash "E x" = "  x"
    ∧ some (make_message_claimed_no_crash "E x") ≠ _make_message "/" "E x" none
    ∧ _make_message "/work/proj" "boom" (some "sub/test_x.py") = none :=
  ⟨by decide, by decide, by decide, by decide⟩

/-- C4 (amended): with no crash locator the formatter skips relativization and
returns the rendered traceback with the failing-line marker replaced by a
two-space indent and common leading whitespace then removed (textwrap.dedent);
it completes without raising whenever the crash locator is absent, or agrees
with the working directory on absoluteness. -/
theorem C4_formatter_amended :
    (∀ cwd trace, _make_message cwd trace none = some (dedent (subEMarker trace)))
    ∧ (∀ cwd trace path, isAbs cwd = isAbs path →
        (_make_message cwd trace (some path)).isSome = true)
    ∧ _make_message "/" "def f():\nE assert 1 == 2" none = some "def f():\n  assert 1 == 2"
    ∧ _make_message "/" "E x" none = some "x" := by
  refine ⟨fun cwd trace => rfl, fun cwd trace path h => ?_, by decide, by decide⟩
  show ((commonpath2 cwd path).map _).isSome = true
  rw [Option.isSome_map']
  unfold commonpath2
  rw [if_neg (by simp [h])]
  rfl

/-- C4 witness: two absolute paths agree on absoluteness and the formatter
completes on them. -/
theorem C4_formatter_amended_witness :
    isAbs "/a" = isAbs "/b"
    ∧ (_make_message "/a" "t" (some "/b")).isSome = true :=
  ⟨by decide, C4_formatter_amended.2.1 "/a" "t" "/b" (by decide)⟩

/-- C5: the sanitizer removes every traceback-verbosity flag in both the
separate-token and the equals form, preserves the relative order of the
remaining arguments (the removal recursion keeps survivors in order), appends
"--tb=no" last, and maps the three example argument lists as claimed. -/
theorem C5_sanitize_args :
    (∀ args : List String, _sanitize_args args = removeTbSpec args ++ ["--tb=no"])
    ∧ _sanitize_args ["--tb=long", "-v"] = ["-v", "--tb=no"]
    ∧ _sanitize_args ["--tb", "long", "-x"] = ["-x", "--tb=no"]
    ∧ _sanitize_args ["-q"] = ["-q", "--tb=no"] := by
  refine ⟨fun args => ?_, by decide, by decide, by decide⟩
  unfold _sanitize_args
  rw [sanitizeGo_bounded args.length args (Nat.le_refl _)]

/-- C6: a failed setup report on a fresh or still-passing record makes the
final status errored; once failed or errored no later report changes the
record; and a failed call report on a still-passing record sets failed. -/
theorem C6_setup_errored :
    (∀ (env : Env) (self : ResultsReporter) (report : Report) (self' : ResultsReporter),
      report.when = Phase.setup → report.outcome = Outcome.failed →
      (∀ t, lookupTest self.tests report.name = some t → t.is_passing = true) →
      pytest_runtest_logreport env self report = some self' →
      ∃ t', lookupTest self'.tests report.name = some t' ∧ t'.status = Status.errored)
    ∧ (∀ (env : Env) (self : ResultsReporter) (report : Report) (t : Test),
      lookupTest self.tests report.name = some t → t.is_passing = false →
      pytest_runtest_logreport env self report = some self)
    ∧ (∀ (env : Env) (self : ResultsReporter) (report : Report) (self' : ResultsReporter),
      report.when = Phase.call → report.outcome = Outcome.failed →
      (∀ t, lookupTest self.tests report.name = some t → t.is_passing = true) →
      pytest_runtest_logreport env self report = some self' →
      ∃ t', lookupTest self'.tests report.name = some t' ∧ t'.status = Status.failed) := by
  refine ⟨?_, ?_, ?_⟩
  · intro env self report self' hw hf hp hs
    obtain ⟨t', hl, hst, _⟩ := logreport_failed_lookup env self report self' hf hp hs
    refine ⟨t', hl, ?_⟩
    rw [hst, hw, if_neg (by decide)]
  · intro env self report t hl hp
    exact logreport_frozen env self report t hl hp
  · intro env self report self' hw hf hp hs
    obtain ⟨t', hl, hst, _⟩ := logreport_failed_lookup env self report self' hf hp hs
    refine ⟨t', hl, ?_⟩
    rw [hst, hw, if_pos rfl]

/-- C6 witness: the failed setup report r3 processed from a fresh reporter
yields the errored record of self3. -/
theorem C6_setup_errored_witness :
    Report.when r3 = Phase.setup
    ∧ (∃ t', lookupTest self3.tests (Report.name r3) = some t'
        ∧ t'.status = Status.errored) :=
  ⟨rfl, C6_setup_errored.1 env0 reporter0 r3 self3 rfl rfl
    (fun _ h => Option.noConfusion h) (by decide)⟩

/-- C7: on run finish a TESTS_FAILED exit yields testFailures; any other
non-clean exit yields error with the stored fallback message if present and
otherwise the synthesized non-empty message naming the exit status; a clean
exit leaves the overall status as it was. -/
theorem C7_exit_mapping :
    (∀ self : ResultsReporter,
      (pytest_sessionfinish self ExitCode.TESTS_FAILED).results.status
        = OverallStatus.testFailures)
    ∧ (∀ (self : ResultsReporter) (ec : ExitCode),
        ec ≠ ExitCode.OK → ec ≠ ExitCode.TESTS_FAILED →
        (pytest_sessionfinish self ec).results.status = OverallStatus.error
        ∧ (pytest_sessionfinish self ec).results.message
            = some (match self.last_err with
                    | some m => m
                    | none => "Unexpected ExitCode." ++ ec.name ++ ": check logs for details")
        ∧ "Unexpected ExitCode." ++ ec.name ++ ": check logs for details" ≠ "")
    ∧ (∀ self : ResultsReporter,
        (pytest_sessionfinish self ExitCode.OK).results.status = self.results.status) := by
  refine ⟨fun self => ?_, fun self ec h1 h2 => ⟨?_, ?_, ?_⟩, fun self => ?_⟩
  · simp only [pytest_sessionfinish, if_true]
    exact (foldl_add_preserves self.tests self.results.fail).1
  · simp only [pytest_sessionfinish]
    rw [if_neg h2, if_pos h1]
    exact (foldl_add_preserves self.tests _).1
  · simp only [pytest_sessionfinish]
    rw [if_neg h2, if_pos h1]
    exact (foldl_add_preserves self.tests _).2
  · cases ec
    case OK => exact absurd rfl h1
    case TESTS_FAILED => exact absurd rfl h2
    all_goals decide
  · simp only [pytest_sessionfinish]
    rw [if_neg (by decide), if_neg (by simp)]
    exact (foldl_add_preserves self.tests self.results).1

/-- C7 witness: an INTERNAL_ERROR exit on a fresh reporter ends in error with
the synthesized message naming the exit status. -/
theorem C7_exit_mapping_witness :
    ExitCode.INTERNAL_ERROR ≠ ExitCode.OK
    ∧ (pytest_sessionfinish reporter0 ExitCode.INTERNAL_ERROR).results.status
        = OverallStatus.error
    ∧ (pytest_sessionfinish reporter0 ExitCode.INTERNAL_ERROR).results.message
        = some "Unexpected ExitCode.INTERNAL_ERROR: check logs for details" := by
  refine ⟨by decide, ?_, ?_⟩
  · exact (C7_exit_mapping.2.1 reporter0 ExitCode.INTERNAL_ERROR (by decide) (by decide)).1
  · rw [(C7_exit_mapping.2.1 reporter0 ExitCode.INTERNAL_ERROR (by decide) (by decide)).2.1]
    decide

/-- C8: with cwd /work/proj and crash path /work/proj/sub/test_x.py the common
directory prefix is /work/proj; for every traceback the formatter replaces
every occurrence of that prefix by "." in the dedented, marker-stripped
rendering, and on a concrete rendering both occurrences of the crash path
become ./sub/test_x.py. -/
theorem C8_relativization :
    commonpath2 "/work/proj" "/work/proj/sub/test_x.py" = some "/work/proj"
    ∧ (∀ trace, _make_message "/work/proj" trace (some "/work/proj/sub/test_x.py")
        = some (replaceAll (dedent (subEMarker trace)) "/work/proj" "."))
    ∧ _make_message "/work/proj"
        "first /work/proj/sub/test_x.py then /work/proj/sub/test_x.py end"
        (some "/work/proj/sub/test_x.py")
      = some "first ./sub/test_x.py then ./sub/test_x.py end" := by
  have hcp : commonpath2 "/work/proj" "/work/proj/sub/test_x.py" = some "/work/proj" := by
    decide
  refine ⟨hcp, fun trace => ?_, by decide⟩
  simp only [_make_message, hcp, Option.map_some']

/-- C9: a config whose nested test-file list is absent or empty resolves to
the single derived default filename, exactly as a missing config does, while a
non-empty list is used as given. -/
theorem C9_config_fallback :
    (∀ slug : String, resolve_test_files none slug = [default_test_file slug])
    ∧ (∀ slug : String, resolve_test_files (some none) slug = resolve_test_files none slug)
    ∧ (∀ slug : String,
        resolve_test_files (some (some [])) slug = resolve_test_files none slug)
    ∧ default_test_file "two-fer" = "two_fer_test.py"
    ∧ resolve_test_files (some (some ["special_test.py"])) "two-fer" = ["special_test.py"] :=
  ⟨fun _ => rfl, fun _ => rfl, fun _ => rfl, by decide, by decide⟩

/-- C10: a failed report carrying no longrepr still sets the record's status —
failed for the call phase, errored otherwise — and leaves its diagnostic
message absent. -/
theorem C10_missing_longrepr :
    ∀ (env : Env) (self : ResultsReporter) (report : Report),
    report.outcome = Outcome.failed → report.longrepr = none →
    (∀ t, lookupTest self.tests report.name = some t → t.is_passing = true) →
    ∃ self' t', pytest_runtest_logreport env self report = some self'
      ∧ lookupTest self'.tests report.name = some t'
      ∧ t'.message = none
      ∧ t'.status = (if report.when = Phase.call then Status.failed else Status.errored) := by
  intro env self report hf hlr hp
  obtain ⟨self', hs⟩ :=
    Option.isSome_iff_exists.mp (logreport_isSome_no_longrepr env self report hlr)
  obtain ⟨t', hl, hst, hm⟩ := logreport_failed_lookup env self report self' hf hp hs
  exact ⟨self', t', hs, hl, hm hlr, hst⟩

/-- C10 witness: the failed call report r1 without longrepr, on a fresh
reporter, stores a failed record with no message. -/
theorem C10_missing_longrepr_witness :
    r1.longrepr = none
    ∧ ∃ self' t', pytest_runtest_logreport env0 reporter0 r1 = some self'
      ∧ lookupTest self'.tests (Report.name r1) = some t'
      ∧ t'.message = none
      ∧ t'.status = (if Report.when r1 = Phase.call then Status.failed else Status.errored) :=
  ⟨rfl, C10_missing_longrepr env0 reporter0 r1 rfl rfl (fun _ h => Option.noConfusion h)⟩
